import Mathlib

/-!
Shallow embedding of the connection/transport layer of `apymongo`
(`apymongo/connection.py`): the frame codec (`receive_body_on_stream`),
the per-context stream pool (`_Pool`), the topology tracker
(`Connection.__find_master` / `__try_node` / `__callback_master` /
`__add_hosts_and_get_primary` / `disconnect` / `__connect`), the request
dispatcher (`Connection._send_message`), the write-concern response
classifier (`Connection.__check_response_to_last_error`) and the index
assertion cache (`Connection._cache_index`), together with theorems
settling the specification's claims about them.

Python values appearing in the modelled documents are embedded as `PyVal`;
dictionaries as association lists; machine reads of little-endian signed
32-bit fields as explicit arithmetic on byte lists.
-/

/-- Embedding of the Python values that occur in the decoded documents
this layer inspects: `None`, ints, strings, booleans, and lists of host
strings (the only list shape the code iterates). -/
inductive PyVal where
  | null
  | int (n : Int)
  | str (s : String)
  | bool (b : Bool)
  | list (xs : List String)
deriving DecidableEq, Repr

/-- A decoded document: a finite string-keyed mapping, embedded as an
association list (first binding wins, as for a Python `dict`). -/
abbrev Doc := List (String × PyVal)

/-- `d[k]` / `d.get(k)` lookup. -/
def Doc.get? (d : Doc) (k : String) : Option PyVal :=
  List.lookup k d

/-- Python truthiness of an embedded value (`if response["ismaster"]:`). -/
def pyTruthy : PyVal → Bool
  | .null => false
  | .int n => n ≠ 0
  | .str s => s ≠ ""
  | .bool b => b
  | .list xs => xs ≠ []

/-! ## Frame codec (`receive_body_on_stream`, connection.py lines 143-151) -/

/-- Unsigned little-endian 32-bit value of four bytes. -/
def le32 (b0 b1 b2 b3 : Nat) : Nat :=
  b0 + 256 * b1 + 65536 * b2 + 16777216 * b3

/-- `struct.unpack("<i", ...)`: signed little-endian 32-bit value. -/
def sle32 (b0 b1 b2 b3 : Nat) : Int :=
  let n := le32 b0 b1 b2 b3
  if n < 2147483648 then (n : Int) else (n : Int) - 4294967296

/-- Outcome of `receive_body_on_stream` on a header buffer: either the
body read of `length - 16` bytes is issued on the stream, or one of the
two `assert` statements fails, or `struct.unpack` itself fails because
the buffer is not 16 bytes long. -/
inductive FrameRead where
  | readBody (bodyLen : Int)
  | assertIdMismatch
  | assertOpMismatch
  | structError
deriving DecidableEq, Repr

/-- Did the codec accept the header (reach the body read)? -/
def FrameRead.accepted : FrameRead → Bool
  | .readBody _ => true
  | _ => false

/-- Embedding of `receive_body_on_stream(operation, request_id, strm,
callback, header)`: unpack `header[:4]` as the total length, assert the
response-to field `header[8:12]` equals `request_id`, assert the
operation-code field `header[12:]` equals `operation`, then read
`length - 16` body bytes. Bytes 4-7 (the frame's own request id) are
never inspected. -/
def receive_body_on_stream (operation request_id : Int) (header : List Nat) :
    FrameRead :=
  match header with
  | [b0, b1, b2, b3, _, _, _, _, b8, b9, b10, b11, b12, b13, b14, b15] =>
      let length := sle32 b0 b1 b2 b3
      if request_id = sle32 b8 b9 b10 b11 then
        if operation = sle32 b12 b13 b14 b15 then .readBody (length - 16)
        else .assertOpMismatch
      else .assertIdMismatch
  | _ => .structError

/-! ## Stream pool (`_Pool`, connection.py lines 154-214)

Streams are identified by distinct naturals. The pool state mirrors the
fields of `_Pool`: the idle list `streams` (Python `list.pop()` removes
the last element, `append` adds at the end), the per-context held slot
`stream` (a `(pid, stream)` pair or `None`), the `pid` captured at
creation, and `pool_size` (set to 10 in `__init__`). -/

structure PoolState where
  streams : List Nat
  stream : Option (Nat × Nat)
  pid : Nat
  pool_size : Nat
deriving DecidableEq, Repr

/-- `_Pool.__init__`: fresh idle list, capacity 10. (The thread-local
`stream` default is `None`.) -/
def initPool (pid : Nat) : PoolState :=
  { streams := [], stream := none, pid := pid, pool_size := 10 }

/-- Result of one `get_stream` call: the post state, the completion
callback invocations in order, and whether `stream_factory` was used to
open a new connection. -/
structure GetResult where
  state : PoolState
  calls : List Nat
  usedFactory : Bool
deriving DecidableEq, Repr

/-- Embedding of `_Pool.get_stream(callback)` called from process `pid`,
with `fresh` the stream the factory would deliver. Mirrors the source
line by line: the fork check resets `streams` and `pid` (the source
assigns `self.sock = None`, a separate attribute, so the held `stream`
slot is untouched); if a stream is already held for this pid the
callback fires with it, and control then FALLS THROUGH (there is no
`return`) to pop an idle stream or call the factory, firing the callback
again. -/
def get_stream (pid fresh : Nat) (p : PoolState) : GetResult :=
  let p := if pid ≠ p.pid then { p with streams := [], pid := pid } else p
  let calls0 : List Nat :=
    match p.stream with
    | some (q, s) => if q = pid then [s] else []
    | none => []
  match p.streams.getLast? with
  | some s =>
      { state := { p with streams := p.streams.dropLast, stream := some (pid, s) },
        calls := calls0 ++ [s],
        usedFactory := false }
  | none =>
      { state := { p with stream := some (pid, fresh) },
        calls := calls0 ++ [fresh],
        usedFactory := true }

/-- Embedding of `_Pool.return_stream()` called from process `pid`.
Returns the post state and whether the returned stream was closed
instead of retained. -/
def return_stream (pid : Nat) (p : PoolState) : PoolState × Bool :=
  match p.stream with
  | some (q, s) =>
      if q = pid then
        if p.streams.length < p.pool_size then
          ({ p with streams := p.streams ++ [s], stream := none }, false)
        else
          ({ p with stream := none }, true)
      else ({ p with stream := none }, false)
  | none => ({ p with stream := none }, false)

/-- One acquire or release step on the pool, within one execution
context. An acquire carries the stream a factory call would produce. -/
inductive PoolOp where
  | acquire (fresh : Nat)
  | release
deriving DecidableEq, Repr

/-- Run a sequence of acquire/release operations from process `pid`. -/
def runPool (pid : Nat) (p : PoolState) : List PoolOp → PoolState
  | [] => p
  | .acquire f :: rest => runPool pid (get_stream pid f p).state rest
  | .release :: rest => runPool pid (return_stream pid p).1 rest

/-! ## Node-string parsing (`_partition`, `_str_to_node`, lines 63-84) -/

/-- Split a character list at the first occurrence of `sub`
(`source.find(sub)` in `_partition`): `none` when `sub` does not occur,
else the characters before and after it. -/
def splitAtFirst : List Char → List Char → Option (List Char × List Char)
  | [], sub => if sub = [] then some ([], []) else none
  | c :: t, sub =>
      if sub.isPrefixOf (c :: t) then some ([], (c :: t).drop sub.length)
      else
        match splitAtFirst t sub with
        | some pq => some (c :: pq.1, pq.2)
        | none => none

/-- Embedding of `_partition(source, sub)`: split on the first occurrence
of `sub`; `none` in the second component when `sub` does not occur. -/
def pyPartition (source sub : String) : String × Option String :=
  match splitAtFirst source.data sub.data with
  | some pq => (String.mk pq.1, some (String.mk pq.2))
  | none => (source, none)

/-- Decimal digit value of a character, for the digit-only strings that
occur in node addresses. -/
def charDigit? (c : Char) : Option Nat :=
  if 48 ≤ c.toNat ∧ c.toNat ≤ 57 then some (c.toNat - 48) else none

/-- Python `int(s)` on the digit-only strings that occur as port parts of
node addresses; `none` embeds the `ValueError` raised on other input
(Python additionally accepts signs and surrounding whitespace, which do
not occur here). -/
def pyInt? (s : String) : Option Int :=
  match s.data with
  | [] => none
  | cs =>
      (cs.foldl
        (fun acc c => acc.bind fun n => (charDigit? c).map fun d => 10 * n + d)
        (some 0)).map Int.ofNat

/-- Embedding of `_str_to_node(string, default_port)`. The port part is
parsed with Python `int(...)`; an unparsable port raises `ValueError`,
embedded as `none` (no such string occurs in the claims' scenarios). An
absent or empty port part (falsy in Python) selects the default port. -/
def str_to_node (s : String) (default_port : Int) : Option (String × Int) :=
  let hp := pyPartition s ":"
  match hp.2 with
  | none => some (hp.1, default_port)
  | some ps =>
      if ps = "" then some (hp.1, default_port)
      else (pyInt? ps).map (fun n => (hp.1, n))

/-! ## Topology tracker (`Connection`, lines 513-614)

The topology-relevant fields of a `Connection`: the known node set
`self.__nodes` (a Python `set` of `(host, port)` tuples), and the current
host/port selection `self.__host` / `self.__port` (both `None` in the
Unresolved state). -/

structure ConnState where
  nodes : Finset (String × Int)
  host : Option String
  port : Option Int
deriving DecidableEq

/-- `Connection.disconnect` (lines 599-614): replaces the pool with a
fresh `_Pool(self.__connect)` and clears the host/port selection. The
known node set is untouched. -/
def disconnectState (st : ConnState) : ConnState :=
  { st with host := none, port := none }

/-- State effect of `Connection.__try_node(node, callback)` (lines
525-528): `self.disconnect()` then `self.__host, self.__port = node`,
before the `ismaster` probe is issued to that node. -/
def tryNodeState (st : ConnState) (node : String × Int) : ConnState :=
  { disconnectState st with host := some node.1, port := some node.2 }

/-- The value bound to `primary` inside `__callback_master`: the Python
`False` returned by `__add_hosts_and_get_primary` when no `primary`
field is present, the node tuple it returns otherwise, or the literal
`True` substituted when the response says `ismaster`. -/
inductive PyPrimary where
  | falseV
  | trueV
  | node (h : String) (p : Int)
deriving DecidableEq, Repr

/-- `primary is not None` in `__callback_master`: `primary` is always
`False`, `True` or a node tuple there, never `None`, so the test is
always true. -/
def pyIsNotNone (_ : PyPrimary) : Bool := true

/-- Embedding of `Connection.__add_hosts_and_get_primary(response)`
(lines 545-550): merge the parsed `hosts` list (when present) into the
known node set, and return the parsed `primary` node when that field is
present, else Python `False`. A `hosts` value of any non-list shape
would fail iteration in Python and does not occur; host strings whose
port part fails `int(...)` would raise and do not occur (they are
dropped by `filterMap`). -/
def addHostsAndGetPrimary (st : ConnState) (resp : Doc) :
    ConnState × PyPrimary :=
  let st :=
    match resp.get? "hosts" with
    | some (.list hs) =>
        { st with nodes := st.nodes ∪ (hs.filterMap (str_to_node · 27017)).toFinset }
    | _ => st
  match resp.get? "primary" with
  | some (.str p) =>
      match str_to_node p 27017 with
      | some n => (st, .node n.1 n.2)
      | none => (st, .falseV)
  | some _ => (st, .falseV)
  | none => (st, .falseV)

/-- Outcome of `__callback_master`: normal return, the raised
`AutoReconnect`, or the `KeyError` from `response["ismaster"]`. -/
inductive MasterOutcome where
  | ok
  | autoReconnectErr (msg : String)
  | keyErr (k : String)
deriving DecidableEq, Repr

/-- Embedding of `Connection.__callback_master(response)` (lines
531-542): merge hosts and read the reported primary, then override
`primary` with `True` when the response's `ismaster` field is truthy;
succeed when `primary is True` or when `slave_okay` and `primary` is not
`None`; otherwise raise `AutoReconnect("could not find master/primary")`.
The host/port selection is not modified here. (`self.end_request()`
affects only the pool.) -/
def callbackMaster (slave_okay : Bool) (st : ConnState) (resp : Doc) :
    ConnState × MasterOutcome :=
  let sp := addHostsAndGetPrimary st resp
  match resp.get? "ismaster" with
  | none => (sp.1, .keyErr "ismaster")
  | some v =>
      let primary := if pyTruthy v then PyPrimary.trueV else sp.2
      if primary = PyPrimary.trueV ∨ (slave_okay ∧ pyIsNotNone primary) then
        (sp.1, .ok)
      else
        (sp.1, .autoReconnectErr "could not find master/primary")

/-- One round of primary discovery as `__find_master` performs it: probe
one node (`__try_node` sets the host/port selection to it) and run
`__callback_master` on the probe's response document. -/
def findMasterStep (slave_okay : Bool) (st : ConnState)
    (probed : String × Int) (resp : Doc) : ConnState × MasterOutcome :=
  callbackMaster slave_okay (tryNodeState st probed) resp

/-- The address `Connection.__connect` (lines 553-570) dials: it reads
`host, port = self.__host, self.__port` and connects the new stream to
exactly that pair; no discovery is performed on this path. -/
def connectTarget (st : ConnState) : Option String × Option Int :=
  (st.host, st.port)

/-! ## Response error classifier
(`Connection.__check_response_to_last_error`, lines 635-663) -/

/-- The result of `helpers._unpack_response` as the classifier consumes
it: the `number_returned` field and the `data` list of decoded
documents. -/
structure UnpackedResponse where
  number_returned : Int
  data : List Doc
deriving DecidableEq

/-- Modelled from the spec: `helpers._check_command_response` lives in
the `helpers` module, which is not part of the shown source. Per the
specification the classifier's behaviour on a write-concern
acknowledgement is exactly the five ordered rules of its section, with
no additional pre-check effect; acknowledgement documents carry `ok: 1`,
on which the helper is a no-op, and the classifier discards its return
value (every following branch returns first). It is therefore embedded
as the identity with no outcome. -/
def check_command_response (error : Doc) : Doc := error

/-- Classification outcome: the success document, the returned
`AutoReconnect`, `DuplicateKeyError` or `OperationFailure` values, or
one of the Python-level failures (failed `assert`, `IndexError` on
`data[0]`, `KeyError` from `error["err"]`). -/
inductive LastErrorResult where
  | doc (d : Doc)
  | autoReconnect (msg : String)
  | duplicateKey (err : PyVal)
  | opFailure (err : PyVal) (code : PyVal)
  | opFailureNoCode (err : PyVal)
  | assertError
  | indexError
  | keyError (k : String)
deriving DecidableEq

/-- Is the numeric code one of the duplicate-key values, as Python
evaluates `error["code"] in [11000, 11001, 12582]`? -/
def inDupCodes (v : PyVal) : Bool :=
  v = .int 11000 ∨ v = .int 11001 ∨ v = .int 12582

/-- Embedding of `Connection.__check_response_to_last_error(response)`
on the unpacked response. Returns the classification and whether
`self.disconnect()` was invoked. Mirrors the source: assert exactly one
returned document; take `data[0]`; success iff `error.get("err", 0) is
None` (key present with value `None`); then `error["err"]` (a `KeyError`
when the key is absent) compared with `"not master"`, which disconnects
and yields `AutoReconnect`; then the `code` branches. -/
def check_response_to_last_error (resp : UnpackedResponse) :
    LastErrorResult × Bool :=
  if resp.number_returned ≠ 1 then (.assertError, false)
  else
    match resp.data.head? with
    | none => (.indexError, false)
    | some error0 =>
        let error := check_command_response error0
        match error.get? "err" with
        | some .null => (.doc error, false)
        | none => (.keyError "err", false)
        | some errVal =>
            if errVal = .str "not master" then
              (.autoReconnect "not master", true)
            else
              match error.get? "code" with
              | some codeVal =>
                  if inDupCodes codeVal then (.duplicateKey errVal, false)
                  else (.opFailure errVal codeVal, false)
              | none => (.opFailureNoCode errVal, false)

/-! ## Request dispatcher (`Connection._send_message`, lines 667-702) -/

/-- What `send_callback` inside `_send_message` does after the stream is
acquired: write, then either issue the correlated response read, invoke
the callback with `None`, fail an `assert`, raise `AutoReconnect` on a
write failure, or raise a `NameError` on an unbound name. -/
inductive SendOutcome where
  | readIssued (operation request_id : Int)
  | doneNone
  | doneNoCallback
  | assertFailed
  | nameError (n : String)
  | autoReconnect (msg : String)
deriving DecidableEq, Repr

/-- The integer bindings in scope inside `send_callback` when the
follow-up read is issued: only `request_id`, bound by unpacking
`(request_id, data) = message`. -/
def sendCallbackLocals (request_id : Int) : List (String × Int) :=
  [("request_id", request_id)]

/-- Python name resolution: looking up a name absent from every
enclosing scope raises `NameError` naming it. -/
def lookupLocal (env : List (String × Int)) (n : String) :
    Except String Int :=
  match env.lookup n with
  | some v => Except.ok v
  | none => Except.error n

/-- Embedding of `send_callback` in `Connection._send_message(message,
with_last_error, callback)` once a stream is delivered: on a successful
write with `with_last_error` it asserts a callback exists and then calls
`self.__receive_message_on_stream(1, request_d, strm, ...)` — the name
`request_d` is resolved in the local environment, which binds only
`request_id`. -/
def sendMessageOnStream (request_id : Int) (writeOk with_last_error hasCallback : Bool) :
    SendOutcome :=
  if ¬writeOk then .autoReconnect "write failed"
  else if with_last_error then
    if ¬hasCallback then .assertFailed
    else
      match lookupLocal (sendCallbackLocals request_id) "request_d" with
      | .error n => .nameError n
      | .ok rid => .readIssued 1 rid
  else if hasCallback then .doneNone
  else .doneNoCallback

/-! ## Index assertion cache (`Connection._cache_index`, lines 399-426)

The cache `self.__index_cache` is a dict of dicts of dicts keyed by
database, collection and index, valued by an absolute expiry time.
Times are embedded as integers. -/

/-- Insert-or-replace in an association list. -/
def setk {α : Type} (l : List (String × α)) (k : String) (v : α) :
    List (String × α) :=
  match l with
  | [] => [(k, v)]
  | (k', v') :: t => if k' = k then (k, v) :: t else (k', v') :: setk t k v

abbrev IndexCache := List (String × List (String × List (String × Int)))

/-- Composite lookup of the expiry recorded for a
(database, collection, index) triple. -/
def cacheLookup (c : IndexCache) (db coll idx : String) : Option Int :=
  (List.lookup db c).bind fun dc =>
    (List.lookup coll dc).bind fun cc => List.lookup idx cc

/-- Embedding of `Connection._cache_index(database, collection, index,
ttl)` at current time `now`: returns the boolean result and the updated
cache. `expire = timedelta(seconds=ttl) + now`; a missing database or
collection level creates fresh nested dicts and records the expiry; a
present, unexpired (`now < expire`) entry returns `False` without
mutation; otherwise the entry is written and `True` returned. -/
def cache_index (c : IndexCache) (db coll idx : String) (ttl now : Int) :
    Bool × IndexCache :=
  let expire := now + ttl
  match List.lookup db c with
  | none => (true, setk c db [(coll, [(idx, expire)])])
  | some dc =>
      match List.lookup coll dc with
      | none => (true, setk c db (setk dc coll [(idx, expire)]))
      | some cc =>
          match List.lookup idx cc with
          | some exp =>
              if now < exp then (false, c)
              else (true, setk c db (setk dc coll (setk cc idx expire)))
          | none => (true, setk c db (setk dc coll (setk cc idx expire)))

/-! ## Theorems -/

/-- Claim C1: in `_send_message` with `with_last_error` true and a callback
supplied, after a successful write the dispatcher does NOT reach the
correlated follow-up read: the call names `request_d`, which is unbound
in every enclosing scope (the unpacked binding is `request_id`), so a
`NameError` is raised before `__receive_message_on_stream` can run, and
the callback never receives a classified document. This evaluates the
code at the claim's scenario and exhibits the failure. -/
theorem send_with_last_error_hits_unbound_name (request_id : Int) :
    sendMessageOnStream request_id true true true = .nameError "request_d" ∧
    ∀ op rid, sendMessageOnStream request_id true true true ≠ .readIssued op rid := by
  have h : sendMessageOnStream request_id true true true = .nameError "request_d" := rfl
  exact ⟨h, fun op rid hc => by rw [h] at hc; exact SendOutcome.noConfusion hc⟩

/-- Counterexample for claim C2: in the end-to-end discovery scenario — nodes
`["a:27017", "b:27017"]`, probe answered by node `a` with
`{ismaster: false, primary: "b:27017", hosts: ["a:27017", "b:27017",
"c:27017"]}`, `slave_okay` false — discovery does NOT finish resolved
with primary `(b, 27017)`: the outcome is not a normal return and the
host selection is not `b`. -/
theorem discovery_scenario_not_resolved_to_b :
    ¬((findMasterStep false ⟨{("a", 27017), ("b", 27017)}, none, none⟩
          ("a", 27017)
          [("ismaster", .bool false), ("primary", .str "b:27017"),
           ("hosts", .list ["a:27017", "b:27017", "c:27017"])]).2 =
        MasterOutcome.ok ∧
      (findMasterStep false ⟨{("a", 27017), ("b", 27017)}, none, none⟩
          ("a", 27017)
          [("ismaster", .bool false), ("primary", .str "b:27017"),
           ("hosts", .list ["a:27017", "b:27017", "c:27017"])]).1.host =
        some "b") := by
  decide

/-- Claim C2 as amended: in that same scenario the known node set does become
`{(a,27017), (b,27017), (c,27017)}`, but the reported primary is never
selected: the host/port selection remains the probed node `(a, 27017)`
(set by `__try_node`) and `__callback_master` raises
`AutoReconnect("could not find master/primary")`, because its success
test is only `primary is True` or `slave_okay`, and it discards the
parsed primary tuple. -/
theorem discovery_scenario_merges_hosts_but_fails :
    (findMasterStep false ⟨{("a", 27017), ("b", 27017)}, none, none⟩
        ("a", 27017)
        [("ismaster", .bool false), ("primary", .str "b:27017"),
         ("hosts", .list ["a:27017", "b:27017", "c:27017"])]).1.nodes =
      {("a", 27017), ("b", 27017), ("c", 27017)} ∧
    (findMasterStep false ⟨{("a", 27017), ("b", 27017)}, none, none⟩
        ("a", 27017)
        [("ismaster", .bool false), ("primary", .str "b:27017"),
         ("hosts", .list ["a:27017", "b:27017", "c:27017"])]).1.host =
      some "a" ∧
    (findMasterStep false ⟨{("a", 27017), ("b", 27017)}, none, none⟩
        ("a", 27017)
        [("ismaster", .bool false), ("primary", .str "b:27017"),
         ("hosts", .list ["a:27017", "b:27017", "c:27017"])]).1.port =
      some 27017 ∧
    (findMasterStep false ⟨{("a", 27017), ("b", 27017)}, none, none⟩
        ("a", 27017)
        [("ismaster", .bool false), ("primary", .str "b:27017"),
         ("hosts", .list ["a:27017", "b:27017", "c:27017"])]).2 =
      MasterOutcome.autoReconnectErr "could not find master/primary" := by
  refine ⟨by decide, rfl, rfl, rfl⟩

/-- Claim C3: a second `get_stream` in a context that already holds a
checked-out stream does NOT simply hand back the held stream once: the
missing early return makes the callback fire with the held stream and
then AGAIN with a popped idle stream (left case, held 5, idle `[7]`:
calls `[5, 7]`, idle emptied, held slot replaced by 7), or with a newly
opened stream when no idle stream exists (right case: factory used).
This evaluates the code at the claim's failing inputs. -/
theorem reentrant_get_stream_fires_twice :
    get_stream 1 9 ⟨[7], some (1, 5), 1, 10⟩ =
      ⟨⟨[], some (1, 7), 1, 10⟩, [5, 7], false⟩ ∧
    get_stream 1 9 ⟨[], some (1, 5), 1, 10⟩ =
      ⟨⟨[], some (1, 9), 1, 10⟩, [5, 9], true⟩ := by
  exact ⟨rfl, rfl⟩

/-- Claim C4: after `disconnect` the host/port selection is cleared and the
pool is replaced by a fresh one, but a subsequent stream acquisition
does NOT re-run discovery: the fresh pool immediately invokes the
stream factory `__connect`, and `__connect` dials exactly the current
`(self.__host, self.__port)` pair — which is `(None, None)` — with no
re-resolution step on the path. This evaluates the code at the claim's
scenario. -/
theorem connect_after_disconnect_dials_cleared_selection
    (st : ConnState) (pid fresh : Nat) :
    (disconnectState st).host = none ∧
    (disconnectState st).port = none ∧
    (disconnectState st).nodes = st.nodes ∧
    connectTarget (disconnectState st) = (none, none) ∧
    (get_stream pid fresh (initPool pid)).usedFactory = true ∧
    (get_stream pid fresh (initPool pid)).calls = [fresh] := by
  refine ⟨rfl, rfl, rfl, rfl, ?_, ?_⟩ <;>
    simp [get_stream, initPool]

/-- Claim C5: a write-concern acknowledgement whose `err` field equals
`"not master"` makes the classifier invoke `disconnect` (second
component `true`) — which clears the host/port selection and retains the
known node set — and classifies the outcome as `AutoReconnect`, not as
success, duplicate-key, or generic operation failure. -/
theorem not_master_ack_forces_unresolved
    (resp : UnpackedResponse) (d : Doc) (st : ConnState)
    (h1 : resp.number_returned = 1) (h2 : resp.data = [d])
    (h3 : d.get? "err" = some (.str "not master")) :
    check_response_to_last_error resp = (.autoReconnect "not master", true) ∧
    (disconnectState st).host = none ∧
    (disconnectState st).port = none ∧
    (disconnectState st).nodes = st.nodes := by
  refine ⟨?_, rfl, rfl, rfl⟩
  unfold check_response_to_last_error
  rw [h1, h2]
  simp [check_command_response, h3]

/-- Witness for C5 at the concrete acknowledgement
`{err: "not master"}` and a concrete resolved connection state. -/
theorem not_master_ack_forces_unresolved_witness :
    check_response_to_last_error ⟨1, [[("err", PyVal.str "not master")]]⟩ =
      (.autoReconnect "not master", true) ∧
    (disconnectState ⟨{("a", 27017)}, some "a", some 27017⟩).host = none ∧
    (disconnectState ⟨{("a", 27017)}, some "a", some 27017⟩).port = none ∧
    (disconnectState ⟨{("a", 27017)}, some "a", some 27017⟩).nodes =
      {("a", 27017)} :=
  not_master_ack_forces_unresolved ⟨1, [[("err", PyVal.str "not master")]]⟩
    [("err", PyVal.str "not master")] ⟨{("a", 27017)}, some "a", some 27017⟩
    rfl rfl rfl

/-- Claim C6: the classifier requires exactly one result document (any other
`number_returned` fails the `assert`), and over the documented
acknowledgement shapes — taken in the spec's rule order, so the
`err`-null and `err`-"not master" rules fire first — it maps: `err`
present-but-null to success with the document returned regardless of
other fields; a numeric code in {11000, 11001, 12582} to a duplicate-key
outcome carrying the message text; any other numeric code to a generic
operation failure carrying message and code; a non-null message with no
code to a generic operation failure carrying only the message. -/
theorem last_error_classifier_shapes
    (resp : UnpackedResponse) (d : Doc) (m : String) (c : Int)
    (hd : resp.data = [d]) :
    (resp.number_returned ≠ 1 →
      check_response_to_last_error resp = (.assertError, false)) ∧
    (resp.number_returned = 1 →
      (d.get? "err" = some .null →
        check_response_to_last_error resp = (.doc d, false)) ∧
      (d.get? "err" = some (.str m) → m ≠ "not master" →
        (d.get? "code" = some (.int c) →
          ((c = 11000 ∨ c = 11001 ∨ c = 12582) →
            check_response_to_last_error resp =
              (.duplicateKey (.str m), false)) ∧
          (¬(c = 11000 ∨ c = 11001 ∨ c = 12582) →
            check_response_to_last_error resp =
              (.opFailure (.str m) (.int c), false))) ∧
        (d.get? "code" = none →
          check_response_to_last_error resp =
            (.opFailureNoCode (.str m), false)))) := by
  constructor
  · intro h
    unfold check_response_to_last_error
    rw [if_pos h]
  · intro h1
    refine ⟨?_, ?_⟩
    · intro herr
      unfold check_response_to_last_error
      rw [h1, hd]
      simp [check_command_response, herr]
    · intro herr hm
      have hms : PyVal.str m ≠ PyVal.str "not master" := by
        simpa using hm
      refine ⟨?_, ?_⟩
      · intro hcode
        constructor
        · intro hc
          unfold check_response_to_last_error
          rw [h1, hd]
          simp only [check_command_response, List.head?_cons, herr, hcode]
          rcases hc with hc | hc | hc <;>
            simp [hms, inDupCodes, hc]
        · intro hc
          unfold check_response_to_last_error
          rw [h1, hd]
          simp only [check_command_response, List.head?_cons, herr, hcode]
          simp [hms, inDupCodes]
          push_neg at hc
          simp [hc.1, hc.2.1, hc.2.2]
      · intro hcode
        unfold check_response_to_last_error
        rw [h1, hd]
        simp [check_command_response, herr, hcode, hms]

/-- Witness for C6: each documented acknowledgement shape at a concrete
document, plus the fatal framing violation at `number_returned = 2`. -/
theorem last_error_classifier_shapes_witness :
    check_response_to_last_error ⟨1, [[("err", PyVal.null), ("n", .int 7)]]⟩ =
      (.doc [("err", PyVal.null), ("n", .int 7)], false) ∧
    check_response_to_last_error
        ⟨1, [[("err", .str "E11000 duplicate key"), ("code", .int 11000)]]⟩ =
      (.duplicateKey (.str "E11000 duplicate key"), false) ∧
    check_response_to_last_error
        ⟨1, [[("err", .str "boom"), ("code", .int 9)]]⟩ =
      (.opFailure (.str "boom") (.int 9), false) ∧
    check_response_to_last_error ⟨1, [[("err", .str "boom")]]⟩ =
      (.opFailureNoCode (.str "boom"), false) ∧
    check_response_to_last_error ⟨2, [[("err", PyVal.null)]]⟩ =
      (.assertError, false) := by
  refine ⟨?_, ?_, ?_, ?_, ?_⟩
  · exact ((last_error_classifier_shapes ⟨1, _⟩
      [("err", PyVal.null), ("n", .int 7)] "x" 0 rfl).2 rfl).1 (by decide)
  · exact ((((last_error_classifier_shapes ⟨1, _⟩
      [("err", .str "E11000 duplicate key"), ("code", .int 11000)]
      "E11000 duplicate key" 11000 rfl).2 rfl).2 (by decide) (by decide)).1
      (by decide)).1 (by decide)
  · exact ((((last_error_classifier_shapes ⟨1, _⟩
      [("err", .str "boom"), ("code", .int 9)] "boom" 9 rfl).2 rfl).2
      (by decide) (by decide)).1 (by decide)).2 (by decide)
  · exact (((last_error_classifier_shapes ⟨1, _⟩
      [("err", .str "boom")] "boom" 0 rfl).2 rfl).2 (by decide) (by decide)).2
      (by decide)
  · exact (last_error_classifier_shapes ⟨2, [[("err", PyVal.null)]]⟩
      [("err", PyVal.null)] "x" 0 rfl).1 (by decide)

/-- Claim C10: a decoded acknowledgement that lacks the `err` key entirely is
never classified: `error.get("err", 0)` yields the default `0`, which is
not `None`, and the subsequent `error["err"]` lookup raises `KeyError`
regardless of the other fields present — so absence of the error field
is not equivalent to an explicit null. -/
theorem missing_err_key_raises_key_error
    (resp : UnpackedResponse) (d : Doc)
    (h1 : resp.number_returned = 1) (h2 : resp.data = [d])
    (h3 : d.get? "err" = none) :
    check_response_to_last_error resp = (.keyError "err", false) := by
  unfold check_response_to_last_error
  rw [h1, h2]
  simp [check_command_response, h3]

/-- Witness for C10 at a concrete document carrying only a duplicate-key
numeric code and no `err` key. -/
theorem missing_err_key_raises_key_error_witness :
    check_response_to_last_error ⟨1, [[("code", PyVal.int 11000)]]⟩ =
      (.keyError "err", false) :=
  missing_err_key_raises_key_error ⟨1, [[("code", PyVal.int 11000)]]⟩
    [("code", PyVal.int 11000)] rfl rfl rfl

/-- The signed little-endian 32-bit read is injective on byte quadruples:
equal field values force equal bytes. -/
theorem sle32_inj {a b c d a' b' c' d' : Nat}
    (ha : a < 256) (hb : b < 256) (hc : c < 256) (hd : d < 256)
    (ha' : a' < 256) (hb' : b' < 256) (hc' : c' < 256) (hd' : d' < 256)
    (h : sle32 a b c d = sle32 a' b' c' d') :
    a = a' ∧ b = b' ∧ c = c' ∧ d = d' := by
  simp only [sle32, le32] at h
  split_ifs at h <;> omega

/-- The codec accepts a 16-byte header exactly when the response-to
field equals the expected request id and the operation-code field equals
the declared operation. -/
theorem receive_accepted_iff (operation request_id : Int)
    (b0 b1 b2 b3 b4 b5 b6 b7 b8 b9 b10 b11 b12 b13 b14 b15 : Nat) :
    (receive_body_on_stream operation request_id
        [b0, b1, b2, b3, b4, b5, b6, b7, b8, b9, b10, b11, b12, b13, b14, b15]).accepted
        = true ↔
      (request_id = sle32 b8 b9 b10 b11 ∧ operation = sle32 b12 b13 b14 b15) := by
  show (if request_id = sle32 b8 b9 b10 b11 then
      if operation = sle32 b12 b13 b14 b15 then
        FrameRead.readBody (sle32 b0 b1 b2 b3 - 16)
      else FrameRead.assertOpMismatch
    else FrameRead.assertIdMismatch).accepted = true ↔ _
  split_ifs with hA hB
  · simp [FrameRead.accepted, hA, hB]
  · simp [FrameRead.accepted, hA, hB]
  · simp [FrameRead.accepted, hA]

/-- Claim C7: for a 16-byte header, expected request id and declared operation
code, the Frame Codec accepts iff the little-endian 32-bit response-to
field (bytes 8-11) equals the expected request id and the operation-code
field (bytes 12-15) equals the declared operation code; on acceptance it
issues a body read of exactly `length - 16` bytes, `length` being the
little-endian 32-bit value of bytes 0-3; and any single-byte corruption
that changes either checked field (a byte at index 8..15 replaced by a
different byte value) is rejected. -/
theorem frame_codec_acceptance (operation request_id : Int)
    (h0 h1 h2 h3 h4 h5 h6 h7 h8 h9 h10 h11 h12 h13 h14 h15 : Nat)
    (hb8 : h8 < 256) (hb9 : h9 < 256) (hb10 : h10 < 256) (hb11 : h11 < 256)
    (hb12 : h12 < 256) (hb13 : h13 < 256) (hb14 : h14 < 256)
    (hb15 : h15 < 256) (i b : Nat) (hi8 : 8 ≤ i) (hi16 : i < 16)
    (hbb : b < 256)
    (hdiff : b ≠ [h0, h1, h2, h3, h4, h5, h6, h7, h8, h9, h10, h11, h12,
      h13, h14, h15].getD i 0) :
    ((receive_body_on_stream operation request_id
        [h0, h1, h2, h3, h4, h5, h6, h7, h8, h9, h10, h11, h12, h13, h14,
         h15]).accepted = true ↔
      (request_id = sle32 h8 h9 h10 h11 ∧
        operation = sle32 h12 h13 h14 h15)) ∧
    (request_id = sle32 h8 h9 h10 h11 → operation = sle32 h12 h13 h14 h15 →
      receive_body_on_stream operation request_id
        [h0, h1, h2, h3, h4, h5, h6, h7, h8, h9, h10, h11, h12, h13, h14,
         h15] = .readBody (sle32 h0 h1 h2 h3 - 16)) ∧
    ((receive_body_on_stream operation request_id
        [h0, h1, h2, h3, h4, h5, h6, h7, h8, h9, h10, h11, h12, h13, h14,
         h15]).accepted = true →
      (receive_body_on_stream operation request_id
        ([h0, h1, h2, h3, h4, h5, h6, h7, h8, h9, h10, h11, h12, h13, h14,
          h15].set i b)).accepted = false) := by
  refine ⟨receive_accepted_iff _ _ _ _ _ _ _ _ _ _ _ _ _ _ _ _ _ _, ?_, ?_⟩
  · intro hA hB
    show (if request_id = sle32 h8 h9 h10 h11 then
        if operation = sle32 h12 h13 h14 h15 then
          FrameRead.readBody (sle32 h0 h1 h2 h3 - 16)
        else FrameRead.assertOpMismatch
      else FrameRead.assertIdMismatch) = _
    rw [if_pos hA, if_pos hB]
  · intro hacc
    obtain ⟨hA, hB⟩ := (receive_accepted_iff operation request_id
      h0 h1 h2 h3 h4 h5 h6 h7 h8 h9 h10 h11 h12 h13 h14 h15).mp hacc
    interval_cases i
    · show (receive_body_on_stream operation request_id
        [h0, h1, h2, h3, h4, h5, h6, h7, b, h9, h10, h11, h12, h13, h14,
         h15]).accepted = false
      rw [Bool.eq_false_iff]
      intro hacc'
      obtain ⟨hA', _⟩ := (receive_accepted_iff _ _
        _ _ _ _ _ _ _ _ _ _ _ _ _ _ _ _).mp hacc'
      exact hdiff (sle32_inj hbb hb9 hb10 hb11 hb8 hb9 hb10 hb11
        (hA'.symm.trans hA)).1
    · show (receive_body_on_stream operation request_id
        [h0, h1, h2, h3, h4, h5, h6, h7, h8, b, h10, h11, h12, h13, h14,
         h15]).accepted = false
      rw [Bool.eq_false_iff]
      intro hacc'
      obtain ⟨hA', _⟩ := (receive_accepted_iff _ _
        _ _ _ _ _ _ _ _ _ _ _ _ _ _ _ _).mp hacc'
      exact hdiff (sle32_inj hb8 hbb hb10 hb11 hb8 hb9 hb10 hb11
        (hA'.symm.trans hA)).2.1
    · show (receive_body_on_stream operation request_id
        [h0, h1, h2, h3, h4, h5, h6, h7, h8, h9, b, h11, h12, h13, h14,
         h15]).accepted = false
      rw [Bool.eq_false_iff]
      intro hacc'
      obtain ⟨hA', _⟩ := (receive_accepted_iff _ _
        _ _ _ _ _ _ _ _ _ _ _ _ _ _ _ _).mp hacc'
      exact hdiff (sle32_inj hb8 hb9 hbb hb11 hb8 hb9 hb10 hb11
        (hA'.symm.trans hA)).2.2.1
    · show (receive_body_on_stream operation request_id
        [h0, h1, h2, h3, h4, h5, h6, h7, h8, h9, h10, b, h12, h13, h14,
         h15]).accepted = false
      rw [Bool.eq_false_iff]
      intro hacc'
      obtain ⟨hA', _⟩ := (receive_accepted_iff _ _
        _ _ _ _ _ _ _ _ _ _ _ _ _ _ _ _).mp hacc'
      exact hdiff (sle32_inj hb8 hb9 hb10 hbb hb8 hb9 hb10 hb11
        (hA'.symm.trans hA)).2.2.2
    · show (receive_body_on_stream operation request_id
        [h0, h1, h2, h3, h4, h5, h6, h7, h8, h9, h10, h11, b, h13, h14,
         h15]).accepted = false
      rw [Bool.eq_false_iff]
      intro hacc'
      obtain ⟨_, hB'⟩ := (receive_accepted_iff _ _
        _ _ _ _ _ _ _ _ _ _ _ _ _ _ _ _).mp hacc'
      exact hdiff (sle32_inj hbb hb13 hb14 hb15 hb12 hb13 hb14 hb15
        (hB'.symm.trans hB)).1
    · show (receive_body_on_stream operation request_id
        [h0, h1, h2, h3, h4, h5, h6, h7, h8, h9, h10, h11, h12, b, h14,
         h15]).accepted = false
      rw [Bool.eq_false_iff]
      intro hacc'
      obtain ⟨_, hB'⟩ := (receive_accepted_iff _ _
        _ _ _ _ _ _ _ _ _ _ _ _ _ _ _ _).mp hacc'
      exact hdiff (sle32_inj hb12 hbb hb14 hb15 hb12 hb13 hb14 hb15
        (hB'.symm.trans hB)).2.1
    · show (receive_body_on_stream operation request_id
        [h0, h1, h2, h3, h4, h5, h6, h7, h8, h9, h10, h11, h12, h13, b,
         h15]).accepted = false
      rw [Bool.eq_false_iff]
      intro hacc'
      obtain ⟨_, hB'⟩ := (receive_accepted_iff _ _
        _ _ _ _ _ _ _ _ _ _ _ _ _ _ _ _).mp hacc'
      exact hdiff (sle32_inj hb12 hb13 hbb hb15 hb12 hb13 hb14 hb15
        (hB'.symm.trans hB)).2.2.1
    · show (receive_body_on_stream operation request_id
        [h0, h1, h2, h3, h4, h5, h6, h7, h8, h9, h10, h11, h12, h13, h14,
         b]).accepted = false
      rw [Bool.eq_false_iff]
      intro hacc'
      obtain ⟨_, hB'⟩ := (receive_accepted_iff _ _
        _ _ _ _ _ _ _ _ _ _ _ _ _ _ _ _).mp hacc'
      exact hdiff (sle32_inj hb12 hb13 hb14 hbb hb12 hb13 hb14 hb15
        (hB'.symm.trans hB)).2.2.2

/-- Witness for C7: a concrete header declaring length 26, response-to 5
and operation 1, checked against request id 5 and operation 1, with the
corruption of byte 8 (the low response-to byte) to 6. -/
theorem frame_codec_acceptance_witness :
    ((receive_body_on_stream 1 5
        [26, 0, 0, 0, 0, 0, 0, 0, 5, 0, 0, 0, 1, 0, 0, 0]).accepted = true ↔
      ((5 : Int) = sle32 5 0 0 0 ∧ (1 : Int) = sle32 1 0 0 0)) ∧
    ((5 : Int) = sle32 5 0 0 0 → (1 : Int) = sle32 1 0 0 0 →
      receive_body_on_stream 1 5
        [26, 0, 0, 0, 0, 0, 0, 0, 5, 0, 0, 0, 1, 0, 0, 0] =
        .readBody (sle32 26 0 0 0 - 16)) ∧
    ((receive_body_on_stream 1 5
        [26, 0, 0, 0, 0, 0, 0, 0, 5, 0, 0, 0, 1, 0, 0, 0]).accepted = true →
      (receive_body_on_stream 1 5
        ([26, 0, 0, 0, 0, 0, 0, 0, 5, 0, 0, 0, 1, 0, 0, 0].set 8 6)).accepted
        = false) :=
  frame_codec_acceptance 1 5 26 0 0 0 0 0 0 0 5 0 0 0 1 0 0 0
    (by decide) (by decide) (by decide) (by decide) (by decide) (by decide)
    (by decide) (by decide) 8 6 (by decide) (by decide) (by decide)
    (by decide)

/-- The idle-list bound `streams.length ≤ pool_size` of a pool state. -/
def PoolInv (p : PoolState) : Prop := p.streams.length ≤ p.pool_size

/-- `get_stream` never grows the idle list and keeps the capacity. -/
theorem get_stream_inv (pid fresh : Nat) (p : PoolState) :
    (get_stream pid fresh p).state.streams.length ≤ p.streams.length ∧
    (get_stream pid fresh p).state.pool_size = p.pool_size := by
  by_cases hp : pid ≠ p.pid
  · simp [get_stream, hp]
  · simp only [get_stream, hp, if_false, reduceIte]
    cases hgl : p.streams.getLast? with
    | none => simp
    | some s =>
        simp [List.length_dropLast]

/-- `return_stream` appends only below capacity and keeps the
capacity. -/
theorem return_stream_inv (pid : Nat) (p : PoolState) (h : PoolInv p) :
    PoolInv (return_stream pid p).1 ∧
    (return_stream pid p).1.pool_size = p.pool_size := by
  unfold PoolInv at h ⊢
  cases hs : p.stream with
  | none => simp [return_stream, hs, h]
  | some qs =>
      obtain ⟨q, s⟩ := qs
      by_cases hq : q = pid
      · by_cases hl : p.streams.length < p.pool_size
        · simp only [return_stream, hs, hq, if_true, if_pos hl, reduceIte]
          constructor
          · simpa using hl
          · trivial
        · simp [return_stream, hs, hq, hl, h]
      · simp [return_stream, hs, hq, h]

/-- Any acquire/release sequence preserves the idle bound and the
capacity. -/
theorem runPool_inv (pid : Nat) (ops : List PoolOp) (p : PoolState)
    (h : PoolInv p) :
    PoolInv (runPool pid p ops) ∧
    (runPool pid p ops).pool_size = p.pool_size := by
  induction ops generalizing p with
  | nil => exact ⟨h, rfl⟩
  | cons op rest ih =>
      cases op with
      | acquire f =>
          have hg := get_stream_inv pid f p
          have hi : PoolInv (get_stream pid f p).state := by
            unfold PoolInv at h ⊢
            omega
          have := ih _ hi
          exact ⟨this.1, by rw [runPool]; rw [this.2, hg.2]⟩
      | release =>
          have hr := return_stream_inv pid p h
          have := ih _ hr.1
          exact ⟨this.1, by rw [runPool]; rw [this.2, hr.2]⟩

/-- Claim C8: over every sequence of acquire/release operations on one pool
instance within one execution context, the idle stream list never holds
more than 10 streams (the capacity fixed in `_Pool.__init__`); and
`return_stream` at exactly 10 idle streams closes the held stream
instead of appending it, while below 10 it appends it. -/
theorem pool_idle_capacity (ops : List PoolOp) (pid0 pid s : Nat)
    (p : PoolState) (hheld : p.stream = some (pid, s))
    (hsize : p.pool_size = 10) :
    (runPool pid0 (initPool pid0) ops).streams.length ≤ 10 ∧
    (p.streams.length = 10 →
      return_stream pid p = ({ p with stream := none }, true)) ∧
    (p.streams.length < 10 →
      return_stream pid p =
        ({ p with streams := p.streams ++ [s], stream := none }, false)) := by
  refine ⟨?_, ?_, ?_⟩
  · have h := runPool_inv pid0 ops (initPool pid0) (by simp [PoolInv, initPool])
    unfold PoolInv at h
    have h2 : (runPool pid0 (initPool pid0) ops).pool_size = 10 := h.2
    omega
  · intro hlen
    unfold return_stream
    rw [hheld]
    simp [hsize, hlen]
  · intro hlen
    unfold return_stream
    rw [hheld]
    simp [hsize, hlen]

/-- Witness for C8: a concrete operation sequence from a fresh pool, a
release at exactly 10 idle streams (closed, idle list unchanged), and a
release at 1 idle stream (appended). -/
theorem pool_idle_capacity_witness :
    (runPool 0 (initPool 0) [.acquire 3, .release, .acquire 4]).streams.length
      ≤ 10 ∧
    return_stream 1 ⟨[0, 1, 2, 3, 4, 5, 6, 7, 8, 9], some (1, 99), 1, 10⟩ =
      (⟨[0, 1, 2, 3, 4, 5, 6, 7, 8, 9], none, 1, 10⟩, true) ∧
    return_stream 1 ⟨[7], some (1, 99), 1, 10⟩ =
      (⟨[7, 99], none, 1, 10⟩, false) :=
  ⟨(pool_idle_capacity [.acquire 3, .release, .acquire 4] 0 1 99
      ⟨[7], some (1, 99), 1, 10⟩ rfl rfl).1,
   (pool_idle_capacity [] 0 1 99
      ⟨[0, 1, 2, 3, 4, 5, 6, 7, 8, 9], some (1, 99), 1, 10⟩ rfl rfl).2.1
      (by decide),
   (pool_idle_capacity [] 0 1 99 ⟨[7], some (1, 99), 1, 10⟩ rfl rfl).2.2
      (by decide)⟩

/-- Looking up the key just written by `setk` yields the new value. -/
theorem lookup_setk_self {α : Type} (l : List (String × α)) (k : String)
    (v : α) : List.lookup k (setk l k v) = some v := by
  induction l with
  | nil => simp [setk]
  | cons hd t ih =>
      obtain ⟨k', v'⟩ := hd
      by_cases h : k' = k
      · simp [setk, h]
      · have hb : (k == k') = false := beq_eq_false_iff_ne.mpr (Ne.symm h)
        simp [setk, h, List.lookup, hb, ih]

/-- `setk` leaves every other key's binding unchanged. -/
theorem lookup_setk_ne {α : Type} (l : List (String × α)) (k k' : String)
    (v : α) (h : k' ≠ k) :
    List.lookup k' (setk l k v) = List.lookup k' l := by
  have hb : (k' == k) = false := beq_eq_false_iff_ne.mpr h
  induction l with
  | nil => simp [setk, List.lookup, hb]
  | cons hd t ih =>
      obtain ⟨k2, v2⟩ := hd
      by_cases h2 : k2 = k
      · subst h2
        simp [setk, List.lookup, hb, ih]
      · simp [setk, h2, List.lookup, ih]

/-- Case analysis of one `_cache_index` call: the boolean result, the
expiry recorded on `True`, and the untouched cache on `False`. -/
theorem cache_index_cases (c : IndexCache) (db coll idx : String)
    (ttl now : Int) :
    ((cache_index c db coll idx ttl now).1 = true ↔
      cacheLookup c db coll idx = none ∨
        ∃ e, cacheLookup c db coll idx = some e ∧ e ≤ now) ∧
    ((cache_index c db coll idx ttl now).1 = true →
      cacheLookup (cache_index c db coll idx ttl now).2 db coll idx =
        some (now + ttl)) ∧
    ((cache_index c db coll idx ttl now).1 = false ↔
      ∃ e, cacheLookup c db coll idx = some e ∧ now < e) ∧
    ((cache_index c db coll idx ttl now).1 = false →
      (cache_index c db coll idx ttl now).2 = c) := by
  cases hdb : List.lookup db c with
  | none =>
      have hres : cache_index c db coll idx ttl now =
          (true, setk c db [(coll, [(idx, now + ttl)])]) := by
        simp [cache_index, hdb]
      have hlook : cacheLookup c db coll idx = none := by
        simp [cacheLookup, hdb]
      rw [hres, hlook]
      refine ⟨by simp, ?_, by simp, by simp⟩
      intro _
      simp [cacheLookup, lookup_setk_self, List.lookup]
  | some dc =>
      cases hcoll : List.lookup coll dc with
      | none =>
          have hres : cache_index c db coll idx ttl now =
              (true, setk c db (setk dc coll [(idx, now + ttl)])) := by
            simp [cache_index, hdb, hcoll]
          have hlook : cacheLookup c db coll idx = none := by
            simp [cacheLookup, hdb, hcoll]
          rw [hres, hlook]
          refine ⟨by simp, ?_, by simp, by simp⟩
          intro _
          simp [cacheLookup, lookup_setk_self, List.lookup]
      | some cc =>
          cases hidx : List.lookup idx cc with
          | none =>
              have hres : cache_index c db coll idx ttl now =
                  (true, setk c db (setk dc coll (setk cc idx (now + ttl)))) := by
                simp [cache_index, hdb, hcoll, hidx]
              have hlook : cacheLookup c db coll idx = none := by
                simp [cacheLookup, hdb, hcoll, hidx]
              rw [hres, hlook]
              refine ⟨by simp, ?_, by simp, by simp⟩
              intro _
              simp [cacheLookup, lookup_setk_self]
          | some exp =>
              have hlook : cacheLookup c db coll idx = some exp := by
                simp [cacheLookup, hdb, hcoll, hidx]
              by_cases hlt : now < exp
              · have hres : cache_index c db coll idx ttl now = (false, c) := by
                  simp [cache_index, hdb, hcoll, hidx, hlt]
                rw [hres, hlook]
                refine ⟨by simp; omega, by simp, ?_, by simp⟩
                simp
                omega
              · have hres : cache_index c db coll idx ttl now =
                    (true, setk c db (setk dc coll (setk cc idx (now + ttl)))) := by
                  simp [cache_index, hdb, hcoll, hidx, hlt]
                rw [hres, hlook]
                refine ⟨by simp; omega, ?_, by simp; omega, by simp⟩
                intro _
                simp [cacheLookup, lookup_setk_self]

/-- Claim C9: `_cache_index` returns `True` exactly when the
(database, collection, index) triple has no record or its expiry has
passed, in which case it records (or refreshes) an expiry `ttl` seconds
in the future; it returns `False`, leaving the cache unchanged, exactly
when a non-expired record exists. The characterization is stated for an
arbitrary cache `c` with no side condition. Hence, starting from a cache
`c0` with the triple unrecorded, two calls within `ttl` seconds return
`True` then `False` (the second leaving the cache untouched), and a call
once `ttl` seconds have elapsed returns `True` again and refreshes the
expiry. -/
theorem cache_index_ttl_spec (c c0 : IndexCache) (db coll idx : String)
    (ttl now t1 t2 t3 : Int) (h12 : t1 ≤ t2) (h2 : t2 < t1 + ttl)
    (h3 : t1 + ttl ≤ t3) (habsent : cacheLookup c0 db coll idx = none) :
    (((cache_index c db coll idx ttl now).1 = true ↔
        cacheLookup c db coll idx = none ∨
          ∃ e, cacheLookup c db coll idx = some e ∧ e ≤ now) ∧
      ((cache_index c db coll idx ttl now).1 = true →
        cacheLookup (cache_index c db coll idx ttl now).2 db coll idx =
          some (now + ttl)) ∧
      ((cache_index c db coll idx ttl now).1 = false ↔
        ∃ e, cacheLookup c db coll idx = some e ∧ now < e) ∧
      ((cache_index c db coll idx ttl now).1 = false →
        (cache_index c db coll idx ttl now).2 = c)) ∧
    ((cache_index c0 db coll idx ttl t1).1 = true ∧
      cacheLookup (cache_index c0 db coll idx ttl t1).2 db coll idx =
        some (t1 + ttl) ∧
      (cache_index (cache_index c0 db coll idx ttl t1).2
        db coll idx ttl t2).1 = false ∧
      (cache_index (cache_index c0 db coll idx ttl t1).2
        db coll idx ttl t2).2 = (cache_index c0 db coll idx ttl t1).2 ∧
      (cache_index (cache_index (cache_index c0 db coll idx ttl t1).2
        db coll idx ttl t2).2 db coll idx ttl t3).1 = true ∧
      cacheLookup (cache_index (cache_index (cache_index c0 db coll idx
        ttl t1).2 db coll idx ttl t2).2 db coll idx ttl t3).2 db coll idx =
        some (t3 + ttl)) := by
  refine ⟨cache_index_cases c db coll idx ttl now, ?_⟩
  have h1 := (cache_index_cases c0 db coll idx ttl t1).1.mpr (Or.inl habsent)
  have hl1 := (cache_index_cases c0 db coll idx ttl t1).2.1 h1
  have hf := (cache_index_cases (cache_index c0 db coll idx ttl t1).2
    db coll idx ttl t2).2.2.1.mpr ⟨t1 + ttl, hl1, h2⟩
  have hunch := (cache_index_cases (cache_index c0 db coll idx ttl t1).2
    db coll idx ttl t2).2.2.2 hf
  have h3t : (cache_index (cache_index c0 db coll idx ttl t1).2
      db coll idx ttl t3).1 = true :=
    (cache_index_cases _ db coll idx ttl t3).1.mpr
      (Or.inr ⟨t1 + ttl, hl1, h3⟩)
  have hl3 := (cache_index_cases (cache_index c0 db coll idx ttl t1).2
    db coll idx ttl t3).2.1 h3t
  refine ⟨h1, hl1, hf, hunch, ?_, ?_⟩
  · rw [hunch]
    exact h3t
  · rw [hunch]
    exact hl3

/-- Witness for C9: on a cache already holding a record for the triple
with expiry 100, a call at time 50 returns `False` and leaves the cache
unchanged; and from an empty cache with `ttl = 10`, calls at times 0, 5
and 10 return `True` (expiry 10 recorded), `False` (cache untouched),
`True` (expiry refreshed to 20). -/
theorem cache_index_ttl_spec_witness :
    (cache_index [("db", [("coll", [("idx", 100)])])]
      "db" "coll" "idx" 10 50).1 = false ∧
    (cache_index [("db", [("coll", [("idx", 100)])])]
      "db" "coll" "idx" 10 50).2 = [("db", [("coll", [("idx", 100)])])] ∧
    (cache_index [] "db" "coll" "idx" 10 0).1 = true ∧
    cacheLookup (cache_index [] "db" "coll" "idx" 10 0).2
      "db" "coll" "idx" = some 10 ∧
    (cache_index (cache_index [] "db" "coll" "idx" 10 0).2
      "db" "coll" "idx" 10 5).1 = false ∧
    (cache_index (cache_index [] "db" "coll" "idx" 10 0).2
      "db" "coll" "idx" 10 5).2 = (cache_index [] "db" "coll" "idx" 10 0).2 ∧
    (cache_index (cache_index (cache_index [] "db" "coll" "idx" 10 0).2
      "db" "coll" "idx" 10 5).2 "db" "coll" "idx" 10 10).1 = true ∧
    cacheLookup (cache_index (cache_index (cache_index []
      "db" "coll" "idx" 10 0).2 "db" "coll" "idx" 10 5).2
      "db" "coll" "idx" 10 10).2 "db" "coll" "idx" = some 20 := by
  have h := cache_index_ttl_spec [("db", [("coll", [("idx", 100)])])] []
    "db" "coll" "idx" 10 50 0 5 10 (by decide) (by decide) (by decide) rfl
  refine ⟨h.1.2.2.1.mpr ⟨100, rfl, by decide⟩,
    h.1.2.2.2 (h.1.2.2.1.mpr ⟨100, rfl, by decide⟩), h.2.1, ?_,
    h.2.2.2.1, h.2.2.2.2.1, h.2.2.2.2.2.1, ?_⟩
  · simpa using h.2.2.1
  · simpa using h.2.2.2.2.2.2


